import Mathlib

/-!
Verification of the warming scheduler in `src/app/utils/CameraMotionWarmer.js`.

The JavaScript class `CameraMotionWarmer` is embedded shallowly:

* the mutable instance fields (`isWarming`, `lastWarmingTime`,
  `lastSuccessfulWarmingTime`, `warmingTimer`) become the structure
  `WarmerState`, threaded explicitly through each method;
* timestamps (`Date.now()` values, milliseconds) are natural numbers,
  passed in as explicit `now` arguments; JS number subtraction is modelled
  on `Int` so that differences behave exactly as in the source;
* the `warmingTimer` field records the currently active pending timeout as
  `some fireTime` (the source keeps an opaque handle; after `clearTimeout`
  the handle is dead, which we model as replacing/erasing the option);
* the async executor `warmReplicateAPI` consumes an `ExecEnv` describing
  the responses the network delivers during the run (the creation `fetch`
  and the successive status polls), and produces the next state, the
  sequence of callback invocations, and an optional exception escaping the
  async function.  If the supplied poll trace is too short to reach a
  terminal status the model returns `none` (the real loop would keep
  polling);
* the three callback hooks are opaque injected functions; the model only
  tracks whether each one raises when invoked (`Hooks`), since that is the
  sole way a hook can influence the scheduler's state.
-/

/-- The mutable fields of a `CameraMotionWarmer` instance. -/
structure WarmerState where
  isWarming : Bool
  lastWarmingTime : Nat
  lastSuccessfulWarmingTime : Nat
  warmingTimer : Option Nat
deriving Repr, DecidableEq

/-- Initial field values set by the constructor. -/
def initState : WarmerState :=
  { isWarming := false, lastWarmingTime := 0, lastSuccessfulWarmingTime := 0,
    warmingTimer := none }

/-- `cooldownPeriod: options.cooldownPeriod || 10000` — the JS `||` takes the
default whenever the supplied value is falsy (absent, or the number 0). -/
def mkCooldownPeriod (optCooldown : Option Nat) : Nat :=
  match optCooldown with
  | none => 10000
  | some c => if c = 0 then 10000 else c

/-- A prediction resource as parsed from a response body. -/
structure Prediction where
  predictionId : String
  status : String
  logs : Option (List String)
  error : Option String
deriving Repr, DecidableEq

/-- JS `a || b` on an optional string: the default is taken when the value is
absent or the empty string (both falsy). -/
def jsOr (o : Option String) (d : String) : String :=
  match o with
  | none => d
  | some v => if v = "" then d else v

/-- Outcome of the creation `fetch('/api/predictions/warm', ...)` together
with parsing of its body. -/
inductive CreationResp where
  | notOk (status : Nat)
  | ok (p : Prediction)
  | raised (msg : String)
deriving Repr, DecidableEq

/-- Outcome of one status poll `fetch('/api/predictions/id')`. -/
inductive PollResp where
  | ok (p : Prediction)
  | notOk
  | raised (msg : String)
deriving Repr, DecidableEq

/-- The network responses one executor run consumes. -/
structure ExecEnv where
  creation : CreationResp
  polls : List PollResp
deriving Repr, DecidableEq

/-- Errors funneled to `onWarmingError` or escaping the async executor. -/
inductive WarmErr where
  | warmingFailed (status : Nat)
  | predictionFailed (msg : String)
  | statusCheckFailed
  | js (msg : String)
deriving Repr, DecidableEq

/-- Observable callback invocations, in order. -/
inductive Ev where
  | started
  | completed
  | errored (e : WarmErr)
deriving Repr, DecidableEq

/-- Whether each injected hook raises when invoked. -/
structure Hooks where
  startThrows : Bool
  completeThrows : Bool
  errorThrows : Bool
deriving Repr, DecidableEq

/-- terminal test of the poll loop condition:
`status !== 'succeeded' && status !== 'failed'` negated. -/
def isTerminal (p : Prediction) : Bool :=
  p.status = "succeeded" || p.status = "failed"

/-- The poll loop: replace the local snapshot with each fetched resource until
terminal; a non-OK status response throws, a fetch failure propagates.
`none` means the supplied trace ended before a terminal status was reached. -/
def pollLoop : Prediction → List PollResp → Option (Except WarmErr Prediction)
  | p, polls =>
    if isTerminal p then some (Except.ok p)
    else
      match polls with
      | [] => none
      | r :: rest =>
        match r with
        | PollResp.ok q => pollLoop q rest
        | PollResp.notOk => some (Except.error WarmErr.statusCheckFailed)
        | PollResp.raised m => some (Except.error (WarmErr.js m))

/-- The `catch (error)` block followed by the `finally` block:
set `lastWarmingTime`, invoke `onWarmingError(error)` (which may itself
raise), then unconditionally clear `isWarming`; an exception raised by the
hook inside `catch` still runs `finally` and then escapes. -/
def catchBlock (hooks : Hooks) (tEnd : Nat) (s : WarmerState) (evs : List Ev)
    (e : WarmErr) : WarmerState × List Ev × Option WarmErr :=
  ({ s with lastWarmingTime := tEnd, isWarming := false },
   evs ++ [Ev.errored e],
   if hooks.errorThrows then some (WarmErr.js "onWarmingError") else none)

/-- One run of `warmReplicateAPI`.  `tEnd` is the `Date.now()` value observed
when the run reaches its timestamp updates.  Returns the next state, the
callback invocations in order, and an exception escaping the async function
(`none` when the promise resolves normally).  Note the source invokes
`onWarmingStart` after setting `isWarming = true` but before entering the
`try` block: an exception raised there skips the `finally` entirely. -/
def warmReplicateAPI (hooks : Hooks) (tEnd : Nat) (s : WarmerState)
    (env : ExecEnv) : Option (WarmerState × List Ev × Option WarmErr) :=
  if s.isWarming then
    some (s, [], none)
  else
    let s0 : WarmerState := { s with isWarming := true }
    if hooks.startThrows then
      some (s0, [Ev.started], some (WarmErr.js "onWarmingStart"))
    else
      match env.creation with
      | CreationResp.raised m =>
        some (catchBlock hooks tEnd s0 [Ev.started] (WarmErr.js m))
      | CreationResp.notOk status =>
        if hooks.errorThrows then
          some (catchBlock hooks tEnd s0
            [Ev.started, Ev.errored (WarmErr.warmingFailed status)]
            (WarmErr.js "onWarmingError"))
        else
          some ({ s0 with isWarming := false },
            [Ev.started, Ev.errored (WarmErr.warmingFailed status)], none)
      | CreationResp.ok p =>
        match pollLoop p env.polls with
        | none => none
        | some (Except.error e) =>
          some (catchBlock hooks tEnd s0 [Ev.started] e)
        | some (Except.ok fp) =>
          let s1 : WarmerState := { s0 with lastWarmingTime := tEnd }
          if fp.status = "succeeded" then
            let s2 : WarmerState := { s1 with lastSuccessfulWarmingTime := tEnd }
            if hooks.completeThrows then
              some (catchBlock hooks tEnd s2 [Ev.started, Ev.completed]
                (WarmErr.js "onWarmingComplete"))
            else
              some ({ s2 with isWarming := false },
                [Ev.started, Ev.completed], none)
          else
            let e := WarmErr.predictionFailed (jsOr fp.error "Unknown error")
            if hooks.errorThrows then
              some (catchBlock hooks tEnd s1
                [Ev.started, Ev.errored e] (WarmErr.js "onWarmingError"))
            else
              some ({ s1 with isWarming := false },
                [Ev.started, Ev.errored e], none)

/-- What `triggerWarmCall` decides to do with the executor. -/
inductive TriggerAction where
  | dropped
  | immediate
  | scheduled (delayMs : Nat)
deriving Repr, DecidableEq

/-- `triggerWarmCall()`: drop when a warm call is in progress (before any
timer handling); otherwise clear any pending timer, compute the remaining
cooldown from the last successful warming time, and either schedule a delayed
executor run or fire it immediately. -/
def triggerWarmCall (cooldownPeriod : Nat) (s : WarmerState) (now : Nat) :
    WarmerState × TriggerAction :=
  if s.isWarming then
    (s, TriggerAction.dropped)
  else
    let timeSince : Int := (now : Int) - (s.lastSuccessfulWarmingTime : Int)
    let remainingCooldown : Int := max 0 ((cooldownPeriod : Int) - timeSince)
    if 0 < remainingCooldown then
      ({ s with warmingTimer := some (now + remainingCooldown.toNat) },
       TriggerAction.scheduled remainingCooldown.toNat)
    else
      ({ s with warmingTimer := none }, TriggerAction.immediate)

/-- A sequence of `triggerWarmCall` invocations at the given times. -/
def triggerSeq (cooldownPeriod : Nat) (s : WarmerState) :
    List Nat → WarmerState × List TriggerAction
  | [] => (s, [])
  | t :: ts =>
    let r := triggerWarmCall cooldownPeriod s t
    let rest := triggerSeq cooldownPeriod r.1 ts
    (rest.1, r.2 :: rest.2)

/-- The pending timer's callback: run `warmReplicateAPI` (its own entry guard
is the only re-entrancy check) and null the `warmingTimer` field. -/
def timerFire (hooks : Hooks) (tEnd : Nat) (s : WarmerState) (env : ExecEnv) :
    Option (WarmerState × List Ev × Option WarmErr) :=
  (warmReplicateAPI hooks tEnd s env).map
    (fun r => ({ r.1 with warmingTimer := none }, r.2))

/-- `shouldWarmAPI()`: not warming, and strictly more than the cooldown has
elapsed since the last successful warming. -/
def shouldWarmAPI (cooldownPeriod : Nat) (s : WarmerState) (now : Nat) : Bool :=
  !s.isWarming &&
    decide ((cooldownPeriod : Int) <
      (now : Int) - (s.lastSuccessfulWarmingTime : Int))

/-- `freezeWarming()`: force `isWarming = true`; nothing else changes. -/
def freezeWarming (s : WarmerState) : WarmerState :=
  { s with isWarming := true }

/-- `resetWarmingCooldown()`: clear `isWarming` and restart the cooldown
window from now; timer and attempt timestamp are untouched. -/
def resetWarmingCooldown (s : WarmerState) (now : Nat) : WarmerState :=
  { s with isWarming := false, lastSuccessfulWarmingTime := now }

/-- `stopDetection()`: cancel any pending timer. -/
def stopDetection (s : WarmerState) : WarmerState :=
  { s with warmingTimer := none }

/-- Helper: any executor run entered with the flag down records the
`onWarmingStart` invocation first. -/
theorem warm_run_emits_started (hooks : Hooks) (tEnd : Nat) (s : WarmerState)
    (env : ExecEnv) (r : WarmerState × List Ev × Option WarmErr)
    (hw : s.isWarming = false)
    (hrun : warmReplicateAPI hooks tEnd s env = some r) :
    r.2.1.head? = some Ev.started := by
  obtain ⟨cr, pl⟩ := env
  cases hst : hooks.startThrows
  · cases cr with
    | raised m =>
      simp [warmReplicateAPI, catchBlock, hw, hst] at hrun
      subst hrun
      rfl
    | notOk status =>
      cases herr : hooks.errorThrows <;>
        (simp [warmReplicateAPI, catchBlock, hw, hst, herr] at hrun;
         subst hrun; rfl)
    | ok p =>
      cases hp : pollLoop p pl with
      | none =>
        simp [warmReplicateAPI, hw, hst, hp] at hrun
      | some res =>
        cases res with
        | error e =>
          simp [warmReplicateAPI, catchBlock, hw, hst, hp] at hrun
          subst hrun
          rfl
        | ok fp =>
          by_cases hsucc : fp.status = "succeeded"
          · cases hcm : hooks.completeThrows <;>
              (simp [warmReplicateAPI, catchBlock, hw, hst, hp, hsucc, hcm]
                 at hrun;
               subst hrun; rfl)
          · cases herr : hooks.errorThrows <;>
              (simp [warmReplicateAPI, catchBlock, hw, hst, hp, hsucc, herr]
                 at hrun;
               subst hrun; rfl)
  · simp [warmReplicateAPI, hw, hst] at hrun
    subst hrun
    rfl

/-- C1 counterexample: a run entered with the flag down whose `onWarmingStart`
hook raises exits with `isWarming` still `true` — the `finally` block never
runs because the hook is invoked before the `try` block is entered. -/
theorem warm_hookRaise_keeps_flag_cex :
    warmReplicateAPI ⟨true, false, false⟩ 5 initState
      ⟨CreationResp.notOk 500, []⟩ =
      some ({ initState with isWarming := true }, [Ev.started],
        some (WarmErr.js "onWarmingStart")) := rfl

/-- C1 (amended): after every run of `warmReplicateAPI` that begins with
`inProgress` false and whose `onWarmingStart` hook does not raise, the flag is
false again on every exit path — non-OK creation early return, successful
completion, failed prediction, and any failure raised inside the try block,
including one raised by the `onWarmingComplete` or `onWarmingError` hooks.
(An exception raised by `onWarmingStart` escapes before the `try` block and
leaves the flag true; the entry-guard early return leaves the already-true
flag unchanged.) -/
theorem warm_flag_false_after_run (hooks : Hooks) (tEnd : Nat)
    (s : WarmerState) (env : ExecEnv)
    (r : WarmerState × List Ev × Option WarmErr)
    (hS : hooks.startThrows = false)
    (hw : s.isWarming = false)
    (hrun : warmReplicateAPI hooks tEnd s env = some r) :
    r.1.isWarming = false := by
  obtain ⟨cr, pl⟩ := env
  cases cr with
  | raised m =>
    simp [warmReplicateAPI, catchBlock, hw, hS] at hrun
    subst hrun
    rfl
  | notOk status =>
    cases herr : hooks.errorThrows <;>
      (simp [warmReplicateAPI, catchBlock, hw, hS, herr] at hrun;
       subst hrun; rfl)
  | ok p =>
    cases hp : pollLoop p pl with
    | none =>
      simp [warmReplicateAPI, hw, hS, hp] at hrun
    | some res =>
      cases res with
      | error e =>
        simp [warmReplicateAPI, catchBlock, hw, hS, hp] at hrun
        subst hrun
        rfl
      | ok fp =>
        by_cases hsucc : fp.status = "succeeded"
        · cases hcm : hooks.completeThrows <;>
            (simp [warmReplicateAPI, catchBlock, hw, hS, hp, hsucc, hcm]
               at hrun;
             subst hrun; rfl)
        · cases herr : hooks.errorThrows <;>
            (simp [warmReplicateAPI, catchBlock, hw, hS, hp, hsucc, herr]
               at hrun;
             subst hrun; rfl)

/-- C1 witness: the amended theorem applied to a concrete run (non-OK
creation response, no hook raises). -/
theorem warm_flag_false_after_run_witness :
    ({ initState with isWarming := false } : WarmerState).isWarming = false :=
  warm_flag_false_after_run ⟨false, false, false⟩ 5 initState
    ⟨CreationResp.notOk 500, []⟩
    ({ initState with isWarming := false },
     [Ev.started, Ev.errored (WarmErr.warmingFailed 500)], none)
    rfl rfl rfl

/-- C2: with well-behaved hooks, a non-success HTTP status on the creation
request makes the executor invoke `onWarmingError` exactly once with an error
carrying the status code and return early: the whole state is unchanged
except that `isWarming` is false again, `lastWarmingTime` and
`lastSuccessfulWarmingTime` are untouched, no exception escapes, and the
result is the same for every poll trace (no polling occurs). -/
theorem warm_creation_notOk_spec (hooks : Hooks) (tEnd : Nat)
    (s : WarmerState) (status : Nat) (polls : List PollResp)
    (hS : hooks.startThrows = false)
    (hE : hooks.errorThrows = false)
    (hw : s.isWarming = false) :
    warmReplicateAPI hooks tEnd s ⟨CreationResp.notOk status, polls⟩ =
      some ({ s with isWarming := false },
        [Ev.started, Ev.errored (WarmErr.warmingFailed status)], none) := by
  simp [warmReplicateAPI, hw, hS, hE]

/-- C2 witness: the theorem applied at a concrete HTTP 500 creation
response with a nonempty (unconsumed) poll trace. -/
theorem warm_creation_notOk_spec_witness :
    warmReplicateAPI ⟨false, false, false⟩ 7 initState
      ⟨CreationResp.notOk 500, [PollResp.notOk]⟩ =
      some ({ initState with isWarming := false },
        [Ev.started, Ev.errored (WarmErr.warmingFailed 500)], none) :=
  warm_creation_notOk_spec ⟨false, false, false⟩ 7 initState 500
    [PollResp.notOk] rfl rfl rfl

/-- C3 counterexample: a trigger arriving while `isWarming` is true (here
after a freeze with a timer already pending) is dropped WITHOUT cancelling
the pending timer — the drop check precedes the `clearTimeout`, so the
claimed "cancel before deciding drop" does not hold. -/
theorem trigger_drop_keeps_timer_cex :
    triggerWarmCall 10000 ⟨true, 0, 0, some 7⟩ 3 =
      (⟨true, 0, 0, some 7⟩, TriggerAction.dropped) := rfl

/-- C3 (amended): a trigger arriving while `isWarming` is false cancels and
replaces any existing pending timer before deciding between immediate and
delayed fire (the resulting timer field is `none` or the freshly created
handle, never the old one); a trigger arriving while `isWarming` is true is
dropped and leaves the pending timer untouched.  Hence at most one scheduled
delayed fire is ever outstanding. -/
theorem trigger_timer_replacement (cooldownPeriod now : Nat)
    (s : WarmerState) :
    (s.isWarming = true →
      triggerWarmCall cooldownPeriod s now = (s, TriggerAction.dropped)) ∧
    (s.isWarming = false →
      ((triggerWarmCall cooldownPeriod s now).1.warmingTimer = none ∧
        (triggerWarmCall cooldownPeriod s now).2 = TriggerAction.immediate) ∨
      (∃ d : Nat, 0 < d ∧
        (triggerWarmCall cooldownPeriod s now).1.warmingTimer =
          some (now + d) ∧
        (triggerWarmCall cooldownPeriod s now).2 =
          TriggerAction.scheduled d)) := by
  constructor
  · intro hw
    simp [triggerWarmCall, hw]
  · intro hw
    by_cases hrem : 0 <
        max 0 ((cooldownPeriod : Int) -
          ((now : Int) - (s.lastSuccessfulWarmingTime : Int)))
    · right
      refine ⟨(max 0 ((cooldownPeriod : Int) -
          ((now : Int) - (s.lastSuccessfulWarmingTime : Int)))).toNat,
        ?_, ?_, ?_⟩ <;>
        simp [triggerWarmCall, hw, hrem]
    · left
      constructor <;> simp [triggerWarmCall, hw, hrem]

/-- C3 witness: the amended theorem applied to a non-warming state with a
stale pending timer; the trigger (within cooldown) replaces it. -/
theorem trigger_timer_replacement_witness :
    ((triggerWarmCall 10000 ⟨false, 0, 0, some 7⟩ 3).1.warmingTimer = none ∧
      (triggerWarmCall 10000 ⟨false, 0, 0, some 7⟩ 3).2 =
        TriggerAction.immediate) ∨
    (∃ d : Nat, 0 < d ∧
      (triggerWarmCall 10000 ⟨false, 0, 0, some 7⟩ 3).1.warmingTimer =
        some (3 + d) ∧
      (triggerWarmCall 10000 ⟨false, 0, 0, some 7⟩ 3).2 =
        TriggerAction.scheduled d) :=
  (trigger_timer_replacement 10000 3 ⟨false, 0, 0, some 7⟩).2 rfl

/-- C4: for a trigger arriving while `isWarming` is false, with
`remaining = max 0 (cooldownPeriod - (now - lastSuccessfulWarmingTime))`:
if `remaining = 0` the executor fires immediately (and no timer is left);
if `remaining > 0` exactly one delayed fire is scheduled after `remaining`
milliseconds and stored as the pending timer; the trigger's decision and
resulting timer are independent of whatever timer was pending before (a
second trigger cancels and replaces it with a freshly computed delay); and
once a timer fires its field is cleared. -/
theorem trigger_cooldown_decision (cooldownPeriod now now2 tEnd : Nat)
    (s : WarmerState) (hooks : Hooks) (env : ExecEnv)
    (hw : s.isWarming = false) :
    (max 0 ((cooldownPeriod : Int) -
        ((now : Int) - (s.lastSuccessfulWarmingTime : Int))) = 0 →
      triggerWarmCall cooldownPeriod s now =
        ({ s with warmingTimer := none }, TriggerAction.immediate)) ∧
    (0 < max 0 ((cooldownPeriod : Int) -
        ((now : Int) - (s.lastSuccessfulWarmingTime : Int))) →
      triggerWarmCall cooldownPeriod s now =
        ({ s with warmingTimer := some (now +
            (max 0 ((cooldownPeriod : Int) -
              ((now : Int) - (s.lastSuccessfulWarmingTime : Int)))).toNat) },
         TriggerAction.scheduled
           (max 0 ((cooldownPeriod : Int) -
             ((now : Int) - (s.lastSuccessfulWarmingTime : Int)))).toNat)) ∧
    (∀ t1 t2 : Option Nat,
      triggerWarmCall cooldownPeriod { s with warmingTimer := t1 } now2 =
        triggerWarmCall cooldownPeriod { s with warmingTimer := t2 } now2) ∧
    (∀ r : WarmerState × List Ev × Option WarmErr,
      timerFire hooks tEnd s env = some r → r.1.warmingTimer = none) := by
  refine ⟨fun hrem => ?_, fun hrem => ?_, fun t1 t2 => ?_, fun r hr => ?_⟩
  · simp [triggerWarmCall, hw, hrem]
  · simp [triggerWarmCall, hw, hrem]
  · by_cases hrem : 0 <
        max 0 ((cooldownPeriod : Int) -
          ((now2 : Int) - (s.lastSuccessfulWarmingTime : Int))) <;>
      simp [triggerWarmCall, hw, hrem]
  · unfold timerFire at hr
    cases hrun : warmReplicateAPI hooks tEnd s env with
    | none => rw [hrun] at hr; exact absurd hr (by simp)
    | some q =>
      rw [hrun] at hr
      simp at hr
      rw [Prod.ext_iff] at hr
      rw [← hr.1]

/-- C4 witness: the theorem instantiated at a state 3000 ms after a
successful warm with a 10000 ms cooldown: the trigger schedules a delayed
fire in 7000 ms ending at time 10000. -/
theorem trigger_cooldown_decision_witness :
    triggerWarmCall 10000 ⟨false, 0, 3000, none⟩ 6000 =
      ({ (⟨false, 0, 3000, none⟩ : WarmerState) with
          warmingTimer := some 13000 },
       TriggerAction.scheduled 7000) :=
  (trigger_cooldown_decision 10000 6000 0 0 ⟨false, 0, 3000, none⟩
    ⟨false, false, false⟩ ⟨CreationResp.notOk 1, []⟩ rfl).2.1 (by decide)

/-- C5: every trigger in a sequence of trigger invocations made while
`isWarming` is true is dropped: the state (flag, both timestamps, pending
timer) is completely unchanged and no executor run is started. -/
theorem trigger_dropped_while_warming (cooldownPeriod : Nat)
    (s : WarmerState) (ts : List Nat)
    (hw : s.isWarming = true) :
    triggerSeq cooldownPeriod s ts =
      (s, ts.map fun _ => TriggerAction.dropped) := by
  induction ts with
  | nil => rfl
  | cons t rest ih =>
    simp [triggerSeq, triggerWarmCall, hw, ih]

/-- C5 witness: three triggers against a frozen state all drop and change
nothing. -/
theorem trigger_dropped_while_warming_witness :
    triggerSeq 10000 ⟨true, 1, 2, some 9⟩ [5, 6, 30000] =
      (⟨true, 1, 2, some 9⟩,
       [TriggerAction.dropped, TriggerAction.dropped,
        TriggerAction.dropped]) :=
  trigger_dropped_while_warming 10000 ⟨true, 1, 2, some 9⟩ [5, 6, 30000] rfl

/-- C6: with well-behaved hooks and the flag down on entry, when the poll
loop reaches a terminal prediction state the executor sets
`lastWarmingTime` to now; on `succeeded` it also sets
`lastSuccessfulWarmingTime` to now and invokes `onWarmingComplete`; on any
other terminal status (i.e. `failed`) it invokes `onWarmingError` with the
resource's error message or the generic fallback and leaves
`lastSuccessfulWarmingTime` unchanged; and on any raised failure during the
cycle (a poll error or a creation exception) `lastWarmingTime` still
advances while `lastSuccessfulWarmingTime` stays unchanged. -/
theorem warm_terminal_state_updates (hooks : Hooks) (tEnd : Nat)
    (s : WarmerState) (env : ExecEnv)
    (hS : hooks.startThrows = false)
    (hC : hooks.completeThrows = false)
    (hE : hooks.errorThrows = false)
    (hw : s.isWarming = false) :
    (∀ p fp : Prediction, env.creation = CreationResp.ok p →
      pollLoop p env.polls = some (Except.ok fp) →
      (fp.status = "succeeded" →
        warmReplicateAPI hooks tEnd s env =
          some ({ s with isWarming := false, lastWarmingTime := tEnd,
                         lastSuccessfulWarmingTime := tEnd },
            [Ev.started, Ev.completed], none)) ∧
      (fp.status ≠ "succeeded" →
        warmReplicateAPI hooks tEnd s env =
          some ({ s with isWarming := false, lastWarmingTime := tEnd },
            [Ev.started,
             Ev.errored (WarmErr.predictionFailed
               (jsOr fp.error "Unknown error"))], none))) ∧
    (∀ (p : Prediction) (e : WarmErr), env.creation = CreationResp.ok p →
      pollLoop p env.polls = some (Except.error e) →
      warmReplicateAPI hooks tEnd s env =
        some ({ s with isWarming := false, lastWarmingTime := tEnd },
          [Ev.started, Ev.errored e], none)) ∧
    (∀ m : String, env.creation = CreationResp.raised m →
      warmReplicateAPI hooks tEnd s env =
        some ({ s with isWarming := false, lastWarmingTime := tEnd },
          [Ev.started, Ev.errored (WarmErr.js m)], none)) := by
  obtain ⟨cr, pl⟩ := env
  refine ⟨fun p fp hcr hp => ⟨fun hsucc => ?_, fun hsucc => ?_⟩,
    fun p e hcr hp => ?_, fun m hcr => ?_⟩
  · cases hcr
    simp [warmReplicateAPI, catchBlock, hw, hS, hC, hE, hp, hsucc]
  · cases hcr
    simp [warmReplicateAPI, catchBlock, hw, hS, hC, hE, hp, hsucc]
  · cases hcr
    simp [warmReplicateAPI, catchBlock, hw, hS, hC, hE, hp]
  · cases hcr
    simp [warmReplicateAPI, catchBlock, hw, hS, hC, hE]

/-- C6 witness: creation succeeds and the resource is already terminal
(`succeeded`), so the loop body never runs, `onWarmingComplete` is invoked
once, and both timestamps are set to now. -/
theorem warm_terminal_state_updates_witness :
    warmReplicateAPI ⟨false, false, false⟩ 42 initState
      ⟨CreationResp.ok ⟨"id1", "succeeded", none, none⟩, []⟩ =
      some ({ initState with isWarming := false, lastWarmingTime := 42,
                             lastSuccessfulWarmingTime := 42 },
        [Ev.started, Ev.completed], none) :=
  ((warm_terminal_state_updates ⟨false, false, false⟩ 42 initState
      ⟨CreationResp.ok ⟨"id1", "succeeded", none, none⟩, []⟩ rfl rfl rfl
      rfl).1 ⟨"id1", "succeeded", none, none⟩
      ⟨"id1", "succeeded", none, none⟩ rfl rfl).1 rfl

/-- C7: `freezeWarming` sets the flag and changes nothing else (no timer
cancellation, timestamps untouched); `resetWarmingCooldown` clears the flag
and restarts the cooldown from now; a trigger immediately after a freeze is
dropped; and a trigger after a reset with the cooldown fully elapsed fires
immediately. -/
theorem freeze_reset_spec (cooldownPeriod now now2 : Nat) (s : WarmerState) :
    freezeWarming s = { s with isWarming := true } ∧
    resetWarmingCooldown s now =
      { s with isWarming := false, lastSuccessfulWarmingTime := now } ∧
    triggerWarmCall cooldownPeriod (freezeWarming s) now =
      (freezeWarming s, TriggerAction.dropped) ∧
    ((cooldownPeriod : Int) ≤ (now2 : Int) - (now : Int) →
      (triggerWarmCall cooldownPeriod (resetWarmingCooldown s now) now2).2 =
        TriggerAction.immediate) := by
  refine ⟨rfl, rfl, ?_, fun helapsed => ?_⟩
  · simp [triggerWarmCall, freezeWarming]
  · have hy : (cooldownPeriod : Int) - ((now2 : Int) - (now : Int)) ≤ 0 := by
      omega
    simp [triggerWarmCall, resetWarmingCooldown, max_eq_left hy]

/-- C7 witness: the theorem at a frozen-then-reset concrete state; the reset
state triggers immediately once the cooldown has elapsed. -/
theorem freeze_reset_spec_witness :
    (triggerWarmCall 10000
      (resetWarmingCooldown ⟨true, 5, 6, some 2⟩ 100) 20000).2 =
      TriggerAction.immediate :=
  (freeze_reset_spec 10000 100 20000 ⟨true, 5, 6, some 2⟩).2.2.2 (by decide)

/-- C8: the constructor's `options.cooldownPeriod || 10000` applies the
default whenever the supplied duration is falsy: a configured value of 0 (or
an absent value) yields an effective cooldown of 10000 ms, so a zero
cooldown cannot be configured; any non-zero value is kept. -/
theorem cooldown_default_applied :
    mkCooldownPeriod (some 0) = 10000 ∧ mkCooldownPeriod none = 10000 ∧
    ∀ c : Nat, c ≠ 0 → mkCooldownPeriod (some c) = c := by
  refine ⟨rfl, rfl, fun c hc => ?_⟩
  simp [mkCooldownPeriod, hc]

/-- C8 witness: the theorem applied at the configured values 0 and 5. -/
theorem cooldown_default_applied_witness :
    mkCooldownPeriod (some 0) = 10000 ∧ mkCooldownPeriod (some 5) = 5 :=
  ⟨cooldown_default_applied.1,
   cooldown_default_applied.2.2 5 (by decide)⟩

/-- C9: at the exact cooldown boundary (elapsed time equal to
`cooldownPeriod`, flag down) a trigger fires the executor immediately — the
remaining cooldown computes to 0 — while `shouldWarmAPI` still reports
false, since it requires the elapsed time to strictly exceed the cooldown. -/
theorem cooldown_boundary_behavior (cooldownPeriod now : Nat)
    (s : WarmerState)
    (hw : s.isWarming = false)
    (hb : (now : Int) - (s.lastSuccessfulWarmingTime : Int) =
      (cooldownPeriod : Int)) :
    (triggerWarmCall cooldownPeriod s now).2 = TriggerAction.immediate ∧
    shouldWarmAPI cooldownPeriod s now = false := by
  constructor
  · have h0 : max 0 ((cooldownPeriod : Int) -
        ((now : Int) - (s.lastSuccessfulWarmingTime : Int))) = 0 := by
      rw [hb]
      simp
    simp [triggerWarmCall, hw, h0]
  · simp [shouldWarmAPI, hw, hb]

/-- C9 witness: cooldown 10000, last success at 0, trigger at exactly
10000. -/
theorem cooldown_boundary_behavior_witness :
    (triggerWarmCall 10000 ⟨false, 0, 0, none⟩ 10000).2 =
      TriggerAction.immediate ∧
    shouldWarmAPI 10000 ⟨false, 0, 0, none⟩ 10000 = false :=
  cooldown_boundary_behavior 10000 10000 ⟨false, 0, 0, none⟩ rfl (by decide)

/-- C10: `resetWarmingCooldown` mutates only the flag and the last-success
timestamp: the pending timer and `lastWarmingTime` are unchanged, so a
delayed fire scheduled before the reset remains outstanding, and when it
fires it really invokes the executor (the run begins with `onWarmingStart`,
not the entry-guard skip) and then clears the timer field. -/
theorem reset_preserves_timer (now tEnd : Nat) (s : WarmerState)
    (hooks : Hooks) (env : ExecEnv) :
    (resetWarmingCooldown s now).warmingTimer = s.warmingTimer ∧
    (resetWarmingCooldown s now).lastWarmingTime = s.lastWarmingTime ∧
    (resetWarmingCooldown s now).isWarming = false ∧
    (resetWarmingCooldown s now).lastSuccessfulWarmingTime = now ∧
    (∀ r : WarmerState × List Ev × Option WarmErr,
      timerFire hooks tEnd (resetWarmingCooldown s now) env = some r →
        r.2.1.head? = some Ev.started ∧ r.1.warmingTimer = none) := by
  refine ⟨rfl, rfl, rfl, rfl, fun r hr => ?_⟩
  unfold timerFire at hr
  cases hrun : warmReplicateAPI hooks tEnd (resetWarmingCooldown s now) env
      with
  | none => rw [hrun] at hr; exact absurd hr (by simp)
  | some q =>
    rw [hrun] at hr
    simp at hr
    rw [Prod.ext_iff] at hr
    constructor
    · have hstart := warm_run_emits_started hooks tEnd
        (resetWarmingCooldown s now) env q rfl hrun
      rw [← hr.2]
      exact hstart
    · rw [← hr.1]

/-- C10 witness: the theorem at a concrete state with a pending timer; the
timer and attempt timestamp survive the reset while the flag drops. -/
theorem reset_preserves_timer_witness :
    (resetWarmingCooldown ⟨true, 4, 1, some 3⟩ 9).warmingTimer = some 3 ∧
    (resetWarmingCooldown ⟨true, 4, 1, some 3⟩ 9).isWarming = false :=
  ⟨(reset_preserves_timer 9 0 ⟨true, 4, 1, some 3⟩ ⟨false, false, false⟩
      ⟨CreationResp.notOk 1, []⟩).1,
   (reset_preserves_timer 9 0 ⟨true, 4, 1, some 3⟩ ⟨false, false, false⟩
      ⟨CreationResp.notOk 1, []⟩).2.2.1⟩
